import Mathlib

/-!
Shallow embedding of the crossing-detection and deduplication engine of
`backend.py` (vehicle counter).  Geometry is over integer pixel coordinates
(the code converts every centroid to `int` before use), confidences are exact
rationals (the decimal literals `0.25`, `0.3` and the values compared against
them are represented exactly), tracker ids are naturals, and the externally
mutable location file is an `Option String` (`none` models a missing or
unreadable file).
-/

namespace VehicleCounter

/-- A point in frame pixel space, written `(x, y)`. -/
abbrev Point := Int × Int

/-- Gate segment start, `LINE_START = (100, 180)` in `backend.py`. -/
def LINE_START : Point := (100, 180)

/-- Gate segment end, `LINE_END = (700, 50)` in `backend.py`. -/
def LINE_END : Point := (700, 50)

/-- The configured threshold `CONFIDENCE_THRESHOLD = 0.3` (line 22 of
`backend.py`).  Note that the per-observation filter in the main loop compares
against the literal `0.25`, not against this constant. -/
def CONFIDENCE_THRESHOLD : Rat := mkRat 3 10

/-- The literal `0.25` appearing in the main-loop filter `conf > 0.25`
(line 165 of `backend.py`). -/
def conf_literal : Rat := mkRat 1 4

/-- The nested helper `ccw(A, B, C)` of `crossed_line`:
`(C[1] - A[1]) * (B[0] - A[0]) > (B[1] - A[1]) * (C[0] - A[0])`. -/
def ccw (A B C : Point) : Bool :=
  decide ((C.2 - A.2) * (B.1 - A.1) > (B.2 - A.2) * (C.1 - A.1))

/-- `crossed_line(prev, curr, line_start, line_end)` from `backend.py`
(lines 114-118). -/
def crossed_line (prev curr line_start line_end : Point) : Bool :=
  (ccw line_start prev curr != ccw line_end prev curr) &&
  (ccw line_start line_end prev != ccw line_start line_end curr)

/-- Orientation determinant used to reason about `ccw`: `ccw A B C` returns
`true` exactly when `0 < d A B C`. -/
def d (A B C : Point) : Int :=
  (C.2 - A.2) * (B.1 - A.1) - (B.2 - A.2) * (C.1 - A.1)

/-- Default location returned by `get_current_location` when the config file
is missing, unreadable or blank (line 58 of `backend.py`). -/
def default_location : String := "Basni Crossing"

/-- Python's `str.strip()`: drop leading and trailing whitespace characters.
Defined by structural recursion on the character list so that concrete
instances evaluate inside the kernel. -/
def python_strip (s : String) : String :=
  ⟨((s.data.dropWhile Char.isWhitespace).reverse.dropWhile
      Char.isWhitespace).reverse⟩

/-- `get_current_location()` from `backend.py` (lines 46-58).  The external
file read is modeled by an `Option String`: `none` when the file does not
exist or reading it raises, `some raw` with the raw file content otherwise;
`python_strip raw` models `f.read().strip()`. -/
def get_current_location (file : Option String) : String :=
  match file with
  | some raw =>
      let location_id := python_strip raw
      if location_id ≠ "" then location_id else default_location
  | none => default_location

/-- The location-check step of the main loop (lines 140-145 of `backend.py`):
read the source and adopt the new value whenever it differs from the current
one. -/
def location_check (current : String) (file : Option String) : String :=
  let new_location := get_current_location file
  if new_location ≠ current then new_location else current

/-- `map_vehicle_class` from `backend.py` (lines 81-89): identity on the four
recognized labels, lower-casing fallback for anything else. -/
def map_vehicle_class (original_class : String) : String :=
  if original_class = "car" then "car"
  else if original_class = "motorcycle" then "motorcycle"
  else if original_class = "truck" then "truck"
  else if original_class = "bus" then "bus"
  else original_class.toLower

/-- Bounding box `(x1, y1, x2, y2)` in frame pixel space. -/
structure BBox where
  x1 : Int
  y1 : Int
  x2 : Int
  y2 : Int
deriving DecidableEq

/-- Centroid `(int((x1 + x2) / 2), int((y1 + y2) / 2))` (lines 161-162);
pixel coordinates are nonnegative so integer division agrees with Python's
truncation toward zero. -/
def centroid (b : BBox) : Point := ((b.x1 + b.x2) / 2, (b.y1 + b.y2) / 2)

/-- One tracked observation handed to the engine by the external tracker. -/
structure TrackedObservation where
  box_id : Nat
  label : String
  bbox : BBox
  conf : Rat
deriving DecidableEq

/-- The labels admitted by the filter on line 165 of `backend.py`. -/
def recognized_labels : List String := ["car", "motorcycle", "truck", "bus"]

/-- A crossing event handed to the Event Sink (`vehicles` table row /
CSV line): vehicle type, vehicle id, location id. -/
structure CrossingEvent where
  vehicle_type : String
  vehicle_id : Nat
  location_id : String
deriving DecidableEq

/-- The engine's mutable state: `object_memory` (association list, newest
binding first, modeling the Python dict), `counted_ids`, the three display
counters, `sink_attempts` (the ids for which a database write was attempted,
in order, successful or not) and `events` (the events the sink actually
received, i.e. writes that succeeded). -/
structure EngineState where
  object_memory : List (Nat × Point)
  counted_ids : List Nat
  count_cars : Nat
  count_bikes : Nat
  count_trucks : Nat
  sink_attempts : List Nat
  events : List CrossingEvent
deriving DecidableEq

/-- The state at process start: everything empty, counters zero. -/
def initState : EngineState := ⟨[], [], 0, 0, 0, [], []⟩

/-- Counter update of lines 188-193: bump the counter matching the (original)
label; note there is no branch for `"bus"`. -/
def bump_counters (label : String) (s : EngineState) : EngineState :=
  if label = "car" then { s with count_cars := s.count_cars + 1 }
  else if label = "motorcycle" then { s with count_bikes := s.count_bikes + 1 }
  else if label = "truck" then { s with count_trucks := s.count_trucks + 1 }
  else s

/-- The event-emission block of lines 174-193: add the id to `counted_ids`,
attempt exactly one sink write (`log_vehicle_to_database`; `sinkOk` tells
whether the write succeeds — on failure the exception is caught and only
logged), and bump the matching counter.  The emitted event carries the mapped
class, the id and the current location snapshot. -/
def emit_event (loc : String) (sinkOk : Bool) (o : TrackedObservation)
    (s : EngineState) : EngineState :=
  bump_counters o.label
    { s with
      counted_ids := o.box_id :: s.counted_ids
      sink_attempts := s.sink_attempts ++ [o.box_id]
      events := s.events ++
        (if sinkOk then [⟨map_vehicle_class o.label, o.box_id, loc⟩] else []) }

/-- Processing of one observation by the main loop body (lines 159-193 of
`backend.py`): filter on label and confidence; look up the previous centroid
(defaulting to the current one), overwrite the memory entry, and if the
displacement segment crossed the gate and the id is not yet counted, emit the
event. -/
def processObservation (loc : String) (sinkOk : Bool) (s : EngineState)
    (o : TrackedObservation) : EngineState :=
  if o.label ∈ recognized_labels ∧ conf_literal < o.conf then
    let c := centroid o.bbox
    let prev_center := (s.object_memory.lookup o.box_id).getD c
    let s' := { s with object_memory := (o.box_id, c) :: s.object_memory }
    if crossed_line prev_center c LINE_START LINE_END = true ∧
        o.box_id ∉ s.counted_ids then
      emit_event loc sinkOk o s'
    else s'
  else s

/-- One engine input: the location snapshot in force, whether the sink write
would succeed, and the observation itself. -/
structure ObsInput where
  loc : String
  sinkOk : Bool
  obs : TrackedObservation
deriving DecidableEq

/-- Processing of a whole sequence of observations (spanning any number of
frames), in order. -/
def processAll (s : EngineState) (inputs : List ObsInput) : EngineState :=
  inputs.foldl (fun t i => processObservation i.loc i.sinkOk t i.obs) s

/-- Ids carried by the events the sink received, in order. -/
def eventIds (s : EngineState) : List Nat := s.events.map (fun e => e.vehicle_id)

/-- How many events carrying `id` the sink has received. -/
def eventCount (id : Nat) (s : EngineState) : Nat := (eventIds s).count id

/-- How many sink writes were attempted for `id`. -/
def attemptCount (id : Nat) (s : EngineState) : Nat := s.sink_attempts.count id

/-- State of the frame-read loop head (lines 127-136 of `backend.py`): either
still running, with the current read position and the number of restarts
performed so far, or halted. -/
inductive LoopState where
  | running (pos : Nat) (restarts : Nat)
  | halted
deriving DecidableEq

/-- One iteration of the read/restart head of the main loop: read the frame at
the source position; if the read yields no frame, seek back to position 0
(`cap.set(cv2.CAP_PROP_POS_FRAMES, 0)`) and `continue`; if a frame arrives,
the operator may stop the loop with ESC (the loop's only exit). -/
def loop_iter (read : Nat → Option Unit) (esc : Bool) :
    LoopState → LoopState
  | LoopState.running pos restarts =>
      match read pos with
      | none => LoopState.running 0 (restarts + 1)
      | some _ =>
          if esc then LoopState.halted
          else LoopState.running (pos + 1) restarts
  | LoopState.halted => LoopState.halted

/-- The read loop run for `n` iterations against a frame source `read` and a
stream `esc` of operator key inputs. -/
def loop_run (read : Nat → Option Unit) (esc : Nat → Bool) : Nat → LoopState
  | 0 => LoopState.running 0 0
  | n + 1 => loop_iter read (esc n) (loop_run read esc n)

/-! ### Concrete inputs used by witnesses and counterexamples -/

/-- Concrete scenario 1 of the spec, first sighting: id 7 with centroid
`(90, 190)`. -/
def obsA : TrackedObservation := ⟨7, "car", ⟨80, 180, 100, 200⟩, mkRat 9 10⟩

/-- Concrete scenario 1 of the spec, second sighting: id 7 with centroid
`(110, 170)`, whose displacement from `(90, 190)` crosses the gate. -/
def obsB : TrackedObservation := ⟨7, "car", ⟨100, 160, 120, 180⟩, mkRat 9 10⟩

/-- The same crossing trajectory as `obsA` but labeled `"bus"`. -/
def busA : TrackedObservation := ⟨7, "bus", ⟨80, 180, 100, 200⟩, mkRat 9 10⟩

/-- The same crossing trajectory as `obsB` but labeled `"bus"`. -/
def busB : TrackedObservation := ⟨7, "bus", ⟨100, 160, 120, 180⟩, mkRat 9 10⟩

/-- Concrete scenario 3 of the spec: id 9 first observed with centroid
`(500, 500)`, far from the gate. -/
def obs9 : TrackedObservation := ⟨9, "car", ⟨490, 490, 510, 510⟩, mkRat 9 10⟩

/-- Point-on-segment predicate over integer points (on the carrying line and
within the bounding box); used only to state the geometry of tie
configurations in claims. -/
def onSegment (P A B : Point) : Bool :=
  (d A B P == 0) && (min A.1 B.1 ≤ P.1) && (P.1 ≤ max A.1 B.1) &&
  (min A.2 B.2 ≤ P.2) && (P.2 ≤ max A.2 B.2)

/-! ### Basic lemmas about the embedded definitions -/

theorem bne_not_not (a b : Bool) : ((!a) != (!b)) = (a != b) := by
  cases a <;> cases b <;> rfl

theorem bne_swap (a b : Bool) : (a != b) = (b != a) := by
  cases a <;> cases b <;> rfl

/-- The counter-bump touches no field but the three counters. -/
theorem bump_counters_fields (label : String) (s : EngineState) :
    (bump_counters label s).object_memory = s.object_memory ∧
    (bump_counters label s).counted_ids = s.counted_ids ∧
    (bump_counters label s).sink_attempts = s.sink_attempts ∧
    (bump_counters label s).events = s.events := by
  unfold bump_counters
  split
  · exact ⟨rfl, rfl, rfl, rfl⟩
  split
  · exact ⟨rfl, rfl, rfl, rfl⟩
  split
  · exact ⟨rfl, rfl, rfl, rfl⟩
  exact ⟨rfl, rfl, rfl, rfl⟩

/-- The counter-bump never decreases a counter. -/
theorem bump_counters_mono (label : String) (s : EngineState) :
    s.count_cars ≤ (bump_counters label s).count_cars ∧
    s.count_bikes ≤ (bump_counters label s).count_bikes ∧
    s.count_trucks ≤ (bump_counters label s).count_trucks := by
  unfold bump_counters
  split
  · exact ⟨Nat.le_succ _, Nat.le_refl _, Nat.le_refl _⟩
  split
  · exact ⟨Nat.le_refl _, Nat.le_succ _, Nat.le_refl _⟩
  split
  · exact ⟨Nat.le_refl _, Nat.le_refl _, Nat.le_succ _⟩
  exact ⟨Nat.le_refl _, Nat.le_refl _, Nat.le_refl _⟩

/-- Field-level description of the event-emission block. -/
theorem emit_event_fields (loc : String) (ok : Bool) (o : TrackedObservation)
    (s : EngineState) :
    (emit_event loc ok o s).object_memory = s.object_memory ∧
    (emit_event loc ok o s).counted_ids = o.box_id :: s.counted_ids ∧
    (emit_event loc ok o s).sink_attempts = s.sink_attempts ++ [o.box_id] ∧
    (emit_event loc ok o s).events = s.events ++
      (if ok then [⟨map_vehicle_class o.label, o.box_id, loc⟩] else []) := by
  unfold emit_event
  rcases bump_counters_fields o.label
      { s with
        counted_ids := o.box_id :: s.counted_ids
        sink_attempts := s.sink_attempts ++ [o.box_id]
        events := s.events ++
          (if ok then [⟨map_vehicle_class o.label, o.box_id, loc⟩] else []) }
    with ⟨h1, h2, h3, h4⟩
  exact ⟨h1, h2, h3, h4⟩

/-- Unconditional description of the three possible outcomes of processing a
single observation: filtered out (state untouched), memory refresh only, or
memory refresh plus event emission (the latter only for an uncounted id). -/
theorem processObservation_cases (loc : String) (ok : Bool) (s : EngineState)
    (o : TrackedObservation) :
    processObservation loc ok s o = s ∨
    processObservation loc ok s o =
      { s with object_memory := (o.box_id, centroid o.bbox) :: s.object_memory } ∨
    (o.box_id ∉ s.counted_ids ∧
      processObservation loc ok s o =
        emit_event loc ok o
          { s with object_memory := (o.box_id, centroid o.bbox) :: s.object_memory }) := by
  unfold processObservation
  split
  · dsimp only
    split
    · next h => exact Or.inr (Or.inr ⟨h.2, rfl⟩)
    · exact Or.inr (Or.inl rfl)
  · exact Or.inl rfl

/-- When the observation fails the label-and-confidence filter nothing at all
happens. -/
theorem processObservation_filtered (loc : String) (ok : Bool) (s : EngineState)
    (o : TrackedObservation)
    (h : ¬ (o.label ∈ recognized_labels ∧ conf_literal < o.conf)) :
    processObservation loc ok s o = s := by
  unfold processObservation
  rw [if_neg h]

/-- When the observation passes the filter but the crossing-and-not-yet-counted
test fails, only the position memory is refreshed. -/
theorem processObservation_no_emit (loc : String) (ok : Bool) (s : EngineState)
    (o : TrackedObservation)
    (h : o.label ∈ recognized_labels ∧ conf_literal < o.conf)
    (h2 : ¬ (crossed_line ((s.object_memory.lookup o.box_id).getD (centroid o.bbox))
        (centroid o.bbox) LINE_START LINE_END = true ∧ o.box_id ∉ s.counted_ids)) :
    processObservation loc ok s o =
      { s with object_memory := (o.box_id, centroid o.bbox) :: s.object_memory } := by
  unfold processObservation
  rw [if_pos h]
  dsimp only
  exact if_neg h2

/-- When the observation passes the filter, its displacement segment crosses
the gate and its id is not yet counted, the memory is refreshed and the event
is emitted. -/
theorem processObservation_emit (loc : String) (ok : Bool) (s : EngineState)
    (o : TrackedObservation)
    (h : o.label ∈ recognized_labels ∧ conf_literal < o.conf)
    (h2 : crossed_line ((s.object_memory.lookup o.box_id).getD (centroid o.bbox))
        (centroid o.bbox) LINE_START LINE_END = true)
    (h3 : o.box_id ∉ s.counted_ids) :
    processObservation loc ok s o =
      emit_event loc ok o
        { s with object_memory := (o.box_id, centroid o.bbox) :: s.object_memory } := by
  unfold processObservation
  rw [if_pos h]
  dsimp only
  exact if_pos ⟨h2, h3⟩

/-- Processing one observation never removes an id from `counted_ids`. -/
theorem step_counted_sub (loc : String) (ok : Bool) (s : EngineState)
    (o : TrackedObservation) :
    s.counted_ids ⊆ (processObservation loc ok s o).counted_ids := by
  rcases processObservation_cases loc ok s o with h | h | ⟨hn, h⟩ <;> rw [h]
  · exact fun x hx => hx
  · exact fun x hx => hx
  · rw [(emit_event_fields loc ok o _).2.1]
    exact fun x hx => List.mem_cons_of_mem _ hx

/-- How one processing step can change the per-id event and sink-attempt
counts: for an already-counted id nothing changes; for an uncounted id each
count grows by at most one, and does not change at all unless the id just got
counted. -/
theorem step_counts (loc : String) (ok : Bool) (s : EngineState)
    (o : TrackedObservation) (id : Nat) :
    (id ∈ s.counted_ids →
      eventCount id (processObservation loc ok s o) = eventCount id s ∧
      attemptCount id (processObservation loc ok s o) = attemptCount id s) ∧
    (id ∉ s.counted_ids →
      eventCount id (processObservation loc ok s o) ≤ eventCount id s + 1 ∧
      attemptCount id (processObservation loc ok s o) ≤ attemptCount id s + 1 ∧
      (id ∉ (processObservation loc ok s o).counted_ids →
        eventCount id (processObservation loc ok s o) = eventCount id s ∧
        attemptCount id (processObservation loc ok s o) = attemptCount id s)) := by
  rcases processObservation_cases loc ok s o with h | h | ⟨hn, h⟩ <;> rw [h]
  · exact ⟨fun _ => ⟨rfl, rfl⟩,
      fun _ => ⟨Nat.le_succ _, Nat.le_succ _, fun _ => ⟨rfl, rfl⟩⟩⟩
  · exact ⟨fun _ => ⟨rfl, rfl⟩,
      fun _ => ⟨Nat.le_succ _, Nat.le_succ _, fun _ => ⟨rfl, rfl⟩⟩⟩
  · rcases emit_event_fields loc ok o
        { s with object_memory := (o.box_id, centroid o.bbox) :: s.object_memory }
      with ⟨_, hc, ha, he⟩
    have hat : attemptCount id (emit_event loc ok o
        { s with object_memory := (o.box_id, centroid o.bbox) :: s.object_memory }) =
        attemptCount id s + (if id = o.box_id then 1 else 0) := by
      unfold attemptCount
      rw [ha]
      dsimp only
      rw [List.count_append]
      by_cases hid : id = o.box_id
      · simp [hid]
      · simp [hid, Ne.symm hid]
    have hev : eventCount id (emit_event loc ok o
        { s with object_memory := (o.box_id, centroid o.bbox) :: s.object_memory }) =
        eventCount id s + (if ok = true ∧ id = o.box_id then 1 else 0) := by
      unfold eventCount eventIds
      rw [he]
      dsimp only
      rw [List.map_append, List.count_append]
      cases ok
      · simp
      · by_cases hid : id = o.box_id
        · simp [hid]
        · simp [hid, Ne.symm hid]
    refine ⟨fun hmem => ?_, fun hmem => ?_⟩
    · have hid : id ≠ o.box_id := fun hh => hn (hh ▸ hmem)
      rw [hev, hat]
      simp [hid]
    · refine ⟨?_, ?_, fun hnot => ?_⟩
      · rw [hev]
        split <;> omega
      · rw [hat]
        split <;> omega
      · rw [hc] at hnot
        have hid : id ≠ o.box_id := fun hh => hnot (by
          rw [hh]
          exact List.mem_cons_self _ _)
        rw [hev, hat]
        simp [hid]

theorem processAll_nil (s : EngineState) : processAll s [] = s := rfl

theorem processAll_cons (s : EngineState) (i : ObsInput) (is : List ObsInput) :
    processAll s (i :: is) =
      processAll (processObservation i.loc i.sinkOk s i.obs) is := rfl

theorem processAll_append (s : EngineState) (l₁ l₂ : List ObsInput) :
    processAll s (l₁ ++ l₂) = processAll (processAll s l₁) l₂ := by
  unfold processAll
  rw [List.foldl_append]

/-- Once an id is counted, no further processing ever changes its event count
or its sink-attempt count, and it stays counted. -/
theorem frozen_all (inputs : List ObsInput) (s : EngineState) (id : Nat)
    (h : id ∈ s.counted_ids) :
    eventCount id (processAll s inputs) = eventCount id s ∧
    attemptCount id (processAll s inputs) = attemptCount id s ∧
    id ∈ (processAll s inputs).counted_ids := by
  induction inputs generalizing s with
  | nil => exact ⟨rfl, rfl, h⟩
  | cons i is ih =>
      rw [processAll_cons]
      have hmem : id ∈ (processObservation i.loc i.sinkOk s i.obs).counted_ids :=
        step_counted_sub i.loc i.sinkOk s i.obs h
      rcases (step_counts i.loc i.sinkOk s i.obs id).1 h with ⟨he, ha⟩
      rcases ih _ hmem with ⟨ihe, iha, ihm⟩
      exact ⟨ihe.trans he, iha.trans ha, ihm⟩

/-- For an id not yet counted, a whole run can add at most one event and at
most one sink attempt carrying it. -/
theorem new_all (inputs : List ObsInput) (s : EngineState) (id : Nat)
    (h : id ∉ s.counted_ids) :
    eventCount id (processAll s inputs) ≤ eventCount id s + 1 ∧
    attemptCount id (processAll s inputs) ≤ attemptCount id s + 1 := by
  induction inputs generalizing s with
  | nil => exact ⟨Nat.le_succ _, Nat.le_succ _⟩
  | cons i is ih =>
      rw [processAll_cons]
      rcases (step_counts i.loc i.sinkOk s i.obs id).2 h with ⟨he1, ha1, hfix⟩
      by_cases hm : id ∈ (processObservation i.loc i.sinkOk s i.obs).counted_ids
      · rcases frozen_all is _ id hm with ⟨he, ha, _⟩
        exact ⟨he.trans_le he1, ha.trans_le ha1⟩
      · rcases hfix hm with ⟨he0, ha0⟩
        rcases ih _ hm with ⟨ihe, iha⟩
        rw [he0] at ihe
        rw [ha0] at iha
        exact ⟨ihe, iha⟩

/-- The orientation test in terms of the determinant `d`. -/
theorem ccw_eq_decide (A B C : Point) : ccw A B C = decide (0 < d A B C) := by
  unfold ccw d
  by_cases h : (C.2 - A.2) * (B.1 - A.1) > (B.2 - A.2) * (C.1 - A.1)
  · rw [decide_eq_true h, decide_eq_true (by omega)]
  · rw [decide_eq_false h, decide_eq_false (by omega)]

/-- The determinant is antisymmetric in its last two arguments. -/
theorem d_swap (A B C : Point) : d A C B = -d A B C := by
  unfold d
  ring

/-- Swapping the last two arguments of a non-degenerate orientation test
negates it. -/
theorem ccw_swap (A B C : Point) (h : d A B C ≠ 0) : ccw A C B = !ccw A B C := by
  rw [ccw_eq_decide, ccw_eq_decide, d_swap]
  by_cases hlt : 0 < d A B C
  · rw [decide_eq_true hlt, decide_eq_false (by omega)]
    rfl
  · rw [decide_eq_false hlt, decide_eq_true (by omega)]
    rfl

/-- A zero-length displacement segment never crosses anything: the second
orientation pair of `crossed_line` compares a value with itself. -/
theorem crossed_line_degenerate (p gs ge : Point) :
    crossed_line p p gs ge = false := by
  unfold crossed_line
  rw [bne_self_eq_false]
  exact Bool.and_false _

/-- The read loop against a source that never yields a frame: after `n`
iterations it is still running, has been seeked back to position `0` and has
restarted `n` times, whatever the operator key inputs were. -/
theorem loop_run_all_none (esc : Nat → Bool) (n : Nat) :
    loop_run (fun _ => none) esc n = LoopState.running 0 n := by
  induction n with
  | zero => rfl
  | succ n ih =>
      rw [loop_run, ih]
      rfl

/-- Sanity check of the loop model: with a frame available the operator's ESC
does halt the loop. -/
theorem loop_halts_on_esc :
    loop_run (fun _ => some ()) (fun _ => true) 1 = LoopState.halted := rfl

/-! ### Claims -/

/-- C1 (at-most-once emission): starting from the initial state, across any
sequence of processed observations the sink receives at most one event
carrying a given id — and even at most one write is ever attempted for it —
and once the id sits in `counted_ids` any further processing leaves its event
and attempt counts unchanged. -/
theorem at_most_once_per_id (inputs more : List ObsInput) (id : Nat) :
    eventCount id (processAll initState inputs) ≤ 1 ∧
    attemptCount id (processAll initState inputs) ≤ 1 ∧
    (id ∈ (processAll initState inputs).counted_ids →
      eventCount id (processAll initState (inputs ++ more)) =
        eventCount id (processAll initState inputs) ∧
      attemptCount id (processAll initState (inputs ++ more)) =
        attemptCount id (processAll initState inputs)) := by
  have h0 : id ∉ initState.counted_ids := by
    intro h
    exact (List.not_mem_nil id) h
  rcases new_all inputs initState id h0 with ⟨he, ha⟩
  refine ⟨he, ha, fun hmem => ?_⟩
  rw [processAll_append]
  rcases frozen_all more (processAll initState inputs) id hmem with ⟨he2, ha2, _⟩
  exact ⟨he2, ha2⟩

/-- Witness for C1: the concrete crossing of id 7 (scenario 1 of the spec);
after it is counted, re-observing the same crossing adds no further event. -/
theorem at_most_once_per_id_witness :
    7 ∈ (processAll initState [⟨"L", true, obsA⟩, ⟨"L", true, obsB⟩]).counted_ids ∧
    eventCount 7 (processAll initState
        ([⟨"L", true, obsA⟩, ⟨"L", true, obsB⟩] ++ [⟨"L", true, obsB⟩])) =
      eventCount 7 (processAll initState [⟨"L", true, obsA⟩, ⟨"L", true, obsB⟩]) ∧
    eventCount 7 (processAll initState [⟨"L", true, obsA⟩, ⟨"L", true, obsB⟩]) = 1 := by
  refine ⟨by decide, ?_, by decide⟩
  exact ((at_most_once_per_id [⟨"L", true, obsA⟩, ⟨"L", true, obsB⟩]
    [⟨"L", true, obsB⟩] 7).2.2 (by decide)).1

/-- C2 counterexample: the gate segment `(0,0)-(2,0)` and the displacement
segment `(2,0)-(3,1)` share exactly one point — proved below: every point
lying on both segments equals `(2,0)` — and that point is an endpoint of both
of them (the gate's end and the displacement's start); yet `crossed_line`
returns `true` for this configuration, so the tie is NOT resolved as
"no crossing". -/
theorem tie_policy_counterexample :
    onSegment (2, 0) (0, 0) (2, 0) = true ∧
    onSegment (2, 0) (2, 0) (3, 1) = true ∧
    (∀ P : Point, onSegment P (0, 0) (2, 0) = true →
      onSegment P (2, 0) (3, 1) = true → P = (2, 0)) ∧
    crossed_line (2, 0) (3, 1) (0, 0) (2, 0) = true := by
  refine ⟨by decide, by decide, ?_, by decide⟩
  intro P h1 h2
  obtain ⟨x, y⟩ := P
  unfold onSegment d at h1 h2
  simp only [Bool.and_eq_true, beq_iff_eq, decide_eq_true_eq] at h1 h2
  obtain ⟨⟨⟨⟨hd1, hx1⟩, hx2⟩, hy1⟩, hy2⟩ := h1
  obtain ⟨⟨⟨⟨hd2, hx3⟩, hx4⟩, hy3⟩, hy4⟩ := h2
  simp only [Prod.mk.injEq]
  constructor <;> omega

/-- C2 amended: when the displacement segment is collinear with the gate
(both its endpoints on the gate's carrying line, which covers every
collinear-touching configuration), `crossed_line` does return `false`;
single-shared-endpoint ties, however, are not uniformly rejected. -/
theorem collinear_tie_no_crossing (gs ge p q : Point)
    (hp : d gs ge p = 0) (hq : d gs ge q = 0) :
    crossed_line p q gs ge = false := by
  unfold crossed_line
  rw [ccw_eq_decide gs ge p, ccw_eq_decide gs ge q, hp, hq]
  simp

/-- Witness for the amended C2: a displacement lying on the gate's own line
(touching the gate collinearly) is not reported as a crossing. -/
theorem collinear_tie_no_crossing_witness :
    d (0, 0) (2, 0) (1, 0) = 0 ∧ d (0, 0) (2, 0) (5, 0) = 0 ∧
    crossed_line (1, 0) (5, 0) (0, 0) (2, 0) = false :=
  ⟨by decide, by decide,
    collinear_tie_no_crossing (0, 0) (2, 0) (1, 0) (5, 0) (by decide) (by decide)⟩

/-- C9 counterexample: for the proper, non-degenerate, mutually non-collinear
segments `S=(0,0)-E=(0,1)` (gate) and `P=(-1,0)-Q=(1,0)` (displacement, which
passes through the gate endpoint `S`), the crossing test is NOT symmetric in
the displacement endpoints: `crossed(S,E,P,Q)` is `true` but `crossed(S,E,Q,P)`
is `false`. -/
theorem crossed_symm_counterexample :
    ((0, 0) : Point) ≠ ((0, 1) : Point) ∧
    ((-1, 0) : Point) ≠ ((1, 0) : Point) ∧
    d (0, 0) (0, 1) (-1, 0) ≠ 0 ∧
    crossed_line (-1, 0) (1, 0) (0, 0) (0, 1) = true ∧
    crossed_line (1, 0) (-1, 0) (0, 0) (0, 1) = false := by decide

/-- C9 amended: the crossing test is symmetric in the displacement endpoints
whenever neither gate endpoint is collinear with the displacement segment
(the fully non-collinear reading of "proper segments"). -/
theorem crossed_line_symm (S E P Q : Point)
    (hS : d S P Q ≠ 0) (hE : d E P Q ≠ 0) :
    crossed_line P Q S E = crossed_line Q P S E := by
  unfold crossed_line
  rw [ccw_swap S P Q hS, ccw_swap E P Q hE, bne_not_not,
    bne_swap (ccw S E Q) (ccw S E P)]

/-- Witness for the amended C9: a proper crossing in general position is
reported identically for both orientations of the displacement. -/
theorem crossed_line_symm_witness :
    d (0, 0) (5, -3) (5, 7) ≠ 0 ∧ d (10, 0) (5, -3) (5, 7) ≠ 0 ∧
    crossed_line (5, -3) (5, 7) (0, 0) (10, 0) =
      crossed_line (5, 7) (5, -3) (0, 0) (10, 0) ∧
    crossed_line (5, -3) (5, 7) (0, 0) (10, 0) = true :=
  ⟨by decide, by decide,
    crossed_line_symm (0, 0) (10, 0) (5, -3) (5, 7) (by decide) (by decide),
    by decide⟩

theorem get_current_location_none : get_current_location none = default_location := rfl

theorem get_current_location_empty (raw : String) (h : python_strip raw = "") :
    get_current_location (some raw) = default_location := by
  unfold get_current_location
  dsimp only
  rw [h]
  simp

theorem get_current_location_nonempty (raw : String) (h : python_strip raw ≠ "") :
    get_current_location (some raw) = python_strip raw := by
  unfold get_current_location
  dsimp only
  rw [if_pos h]

/-- The adopt-if-different step always ends up holding exactly what the read
returned. -/
theorem location_check_eq (current : String) (file : Option String) :
    location_check current file = get_current_location file := by
  unfold location_check
  dsimp only
  by_cases hc : get_current_location file ≠ current
  · rw [if_pos hc]
  · rw [if_neg hc]
    push_neg at hc
    exact hc.symm

/-- C3 counterexample: with the previously held location
"Bhagat ki kothi crossing", a failed read does NOT retain it — the current
value becomes the default "Basni Crossing". -/
theorem location_retention_counterexample :
    location_check "Bhagat ki kothi crossing" none = "Basni Crossing" ∧
    ("Basni Crossing" : String) ≠ "Bhagat ki kothi crossing" := by decide

/-- C3 amended: on a failed or empty read the provider falls back to the
default location "Basni Crossing" (it retains the previous value only when
that value is already the default); a successful non-empty read replaces the
current value with the stripped content. -/
theorem location_failure_fallback (current raw : String) :
    location_check current none = default_location ∧
    (python_strip raw = "" → location_check current (some raw) = default_location) ∧
    (python_strip raw ≠ "" → location_check current (some raw) = python_strip raw) := by
  simp only [location_check_eq]
  exact ⟨rfl, fun h => get_current_location_empty raw h,
    fun h => get_current_location_nonempty raw h⟩

/-- Witness for the amended C3: a whitespace-only read falls back to the
default, a successful read replaces the current value. -/
theorem location_failure_fallback_witness :
    location_check "Rai ka bagh crossing" (some "  \n ") = default_location ∧
    location_check "Rai ka bagh crossing" (some " Basni Crossing ") = "Basni Crossing" := by
  refine ⟨(location_failure_fallback "Rai ka bagh crossing" "  \n ").2.1 (by decide), ?_⟩
  have h := (location_failure_fallback "Rai ka bagh crossing" " Basni Crossing ").2.2
    (by decide)
  rw [h]
  decide

/-- C10: whenever the location file is missing or unreadable (`none`) or its
content strips to the empty string, the read returns the fixed constant
"Basni Crossing", and after the location-check step the engine's current
location becomes "Basni Crossing" no matter which value was held before. -/
theorem default_location_on_failure (current raw : String)
    (h : python_strip raw = "") :
    get_current_location none = "Basni Crossing" ∧
    get_current_location (some raw) = "Basni Crossing" ∧
    location_check current none = "Basni Crossing" ∧
    location_check current (some raw) = "Basni Crossing" := by
  have h1 := get_current_location_empty raw h
  refine ⟨rfl, h1, ?_, ?_⟩
  · rw [location_check_eq]
    rfl
  · rw [location_check_eq]
    exact h1

/-- Witness for C10: a whitespace-only file content with an unrelated
previously held location. -/
theorem default_location_on_failure_witness :
    python_strip " \t\n" = "" ∧
    location_check "Bhagat ki kothi crossing" (some " \t\n") = "Basni Crossing" :=
  ⟨by decide,
    (default_location_on_failure "Bhagat ki kothi crossing" " \t\n" (by decide)).2.2.2⟩

/-- Exact effect of the counter-bump for each of the four recognized labels:
note the absence of any branch for `"bus"`. -/
theorem bump_counters_spec (label : String) (s : EngineState) :
    (label = "car" →
      bump_counters label s = { s with count_cars := s.count_cars + 1 }) ∧
    (label = "motorcycle" →
      bump_counters label s = { s with count_bikes := s.count_bikes + 1 }) ∧
    (label = "truck" →
      bump_counters label s = { s with count_trucks := s.count_trucks + 1 }) ∧
    (label = "bus" → bump_counters label s = s) := by
  refine ⟨fun h => ?_, fun h => ?_, fun h => ?_, fun h => ?_⟩ <;> subst h
  · unfold bump_counters
    rw [if_pos rfl]
  · unfold bump_counters
    rw [if_neg (by decide), if_pos rfl]
  · unfold bump_counters
    rw [if_neg (by decide), if_neg (by decide), if_pos rfl]
  · unfold bump_counters
    rw [if_neg (by decide), if_neg (by decide), if_neg (by decide)]

/-- Counter behavior of the emission block, per label, plus monotonicity. -/
theorem emit_event_counters (loc : String) (ok : Bool) (o : TrackedObservation)
    (s : EngineState) :
    (o.label = "car" →
      (emit_event loc ok o s).count_cars = s.count_cars + 1 ∧
      (emit_event loc ok o s).count_bikes = s.count_bikes ∧
      (emit_event loc ok o s).count_trucks = s.count_trucks) ∧
    (o.label = "motorcycle" →
      (emit_event loc ok o s).count_cars = s.count_cars ∧
      (emit_event loc ok o s).count_bikes = s.count_bikes + 1 ∧
      (emit_event loc ok o s).count_trucks = s.count_trucks) ∧
    (o.label = "truck" →
      (emit_event loc ok o s).count_cars = s.count_cars ∧
      (emit_event loc ok o s).count_bikes = s.count_bikes ∧
      (emit_event loc ok o s).count_trucks = s.count_trucks + 1) ∧
    (o.label = "bus" →
      (emit_event loc ok o s).count_cars = s.count_cars ∧
      (emit_event loc ok o s).count_bikes = s.count_bikes ∧
      (emit_event loc ok o s).count_trucks = s.count_trucks) ∧
    s.count_cars ≤ (emit_event loc ok o s).count_cars ∧
    s.count_bikes ≤ (emit_event loc ok o s).count_bikes ∧
    s.count_trucks ≤ (emit_event loc ok o s).count_trucks := by
  unfold emit_event
  refine ⟨fun hl => ?_, fun hl => ?_, fun hl => ?_, fun hl => ?_, ?_, ?_, ?_⟩
  · rw [(bump_counters_spec o.label _).1 hl]
    exact ⟨rfl, rfl, rfl⟩
  · rw [(bump_counters_spec o.label _).2.1 hl]
    exact ⟨rfl, rfl, rfl⟩
  · rw [(bump_counters_spec o.label _).2.2.1 hl]
    exact ⟨rfl, rfl, rfl⟩
  · rw [(bump_counters_spec o.label _).2.2.2 hl]
    exact ⟨rfl, rfl, rfl⟩
  · exact (bump_counters_mono o.label
      { s with
        counted_ids := o.box_id :: s.counted_ids
        sink_attempts := s.sink_attempts ++ [o.box_id]
        events := s.events ++
          (if ok then [⟨map_vehicle_class o.label, o.box_id, loc⟩] else []) }).1
  · exact (bump_counters_mono o.label
      { s with
        counted_ids := o.box_id :: s.counted_ids
        sink_attempts := s.sink_attempts ++ [o.box_id]
        events := s.events ++
          (if ok then [⟨map_vehicle_class o.label, o.box_id, loc⟩] else []) }).2.1
  · exact (bump_counters_mono o.label
      { s with
        counted_ids := o.box_id :: s.counted_ids
        sink_attempts := s.sink_attempts ++ [o.box_id]
        events := s.events ++
          (if ok then [⟨map_vehicle_class o.label, o.box_id, loc⟩] else []) }).2.2

/-- C4 counterexample: a bus crossing the gate produces a sink event, yet
none of the three aggregate counters moves — "bus" is a recognized class that
can produce an event but has no matching counter branch. -/
theorem counter_tracking_counterexample :
    (processAll initState [⟨"L", true, busA⟩, ⟨"L", true, busB⟩]).events =
      [⟨"bus", 7, "L"⟩] ∧
    (processAll initState [⟨"L", true, busA⟩, ⟨"L", true, busB⟩]).count_cars = 0 ∧
    (processAll initState [⟨"L", true, busA⟩, ⟨"L", true, busB⟩]).count_bikes = 0 ∧
    (processAll initState [⟨"L", true, busA⟩, ⟨"L", true, busB⟩]).count_trucks = 0 := by
  decide

/-- Every single processing step — emitting or not — leaves each counter at
least as large as before. -/
theorem step_counters_mono (loc : String) (ok : Bool) (s : EngineState)
    (o : TrackedObservation) :
    s.count_cars ≤ (processObservation loc ok s o).count_cars ∧
    s.count_bikes ≤ (processObservation loc ok s o).count_bikes ∧
    s.count_trucks ≤ (processObservation loc ok s o).count_trucks := by
  rcases processObservation_cases loc ok s o with h | h | ⟨hn, h⟩ <;> rw [h]
  · exact ⟨Nat.le_refl _, Nat.le_refl _, Nat.le_refl _⟩
  · exact ⟨Nat.le_refl _, Nat.le_refl _, Nat.le_refl _⟩
  · rcases emit_event_counters loc ok o
        { s with object_memory := (o.box_id, centroid o.bbox) :: s.object_memory }
      with ⟨_, _, _, _, h5, h6, h7⟩
    exact ⟨h5, h6, h7⟩

/-- Over any whole run the counters are monotonically non-decreasing. -/
theorem run_counters_mono (inputs : List ObsInput) (s : EngineState) :
    s.count_cars ≤ (processAll s inputs).count_cars ∧
    s.count_bikes ≤ (processAll s inputs).count_bikes ∧
    s.count_trucks ≤ (processAll s inputs).count_trucks := by
  induction inputs generalizing s with
  | nil => exact ⟨Nat.le_refl _, Nat.le_refl _, Nat.le_refl _⟩
  | cons i is ih =>
      rw [processAll_cons]
      rcases step_counters_mono i.loc i.sinkOk s i.obs with ⟨h1, h2, h3⟩
      rcases ih (processObservation i.loc i.sinkOk s i.obs) with ⟨g1, g2, g3⟩
      exact ⟨h1.trans g1, h2.trans g2, h3.trans g3⟩

/-- C4 amended: whenever a processing step emits an event (attempts a sink
write), the counter matching the label is incremented by exactly one and the
other two are untouched for the labels car, motorcycle and truck — while a
bus event leaves all three counters unchanged; and unconditionally — at every
single step, emitting or not, and hence over any whole run, i.e. for the
process lifetime — the counters are monotonically non-decreasing. -/
theorem counter_tracking (loc : String) (ok : Bool) (s : EngineState)
    (o : TrackedObservation) (inputs : List ObsInput) :
    ((processObservation loc ok s o).sink_attempts.length =
        s.sink_attempts.length + 1 →
      (o.label = "car" →
        (processObservation loc ok s o).count_cars = s.count_cars + 1 ∧
        (processObservation loc ok s o).count_bikes = s.count_bikes ∧
        (processObservation loc ok s o).count_trucks = s.count_trucks) ∧
      (o.label = "motorcycle" →
        (processObservation loc ok s o).count_cars = s.count_cars ∧
        (processObservation loc ok s o).count_bikes = s.count_bikes + 1 ∧
        (processObservation loc ok s o).count_trucks = s.count_trucks) ∧
      (o.label = "truck" →
        (processObservation loc ok s o).count_cars = s.count_cars ∧
        (processObservation loc ok s o).count_bikes = s.count_bikes ∧
        (processObservation loc ok s o).count_trucks = s.count_trucks + 1) ∧
      (o.label = "bus" →
        (processObservation loc ok s o).count_cars = s.count_cars ∧
        (processObservation loc ok s o).count_bikes = s.count_bikes ∧
        (processObservation loc ok s o).count_trucks = s.count_trucks)) ∧
    s.count_cars ≤ (processObservation loc ok s o).count_cars ∧
    s.count_bikes ≤ (processObservation loc ok s o).count_bikes ∧
    s.count_trucks ≤ (processObservation loc ok s o).count_trucks ∧
    s.count_cars ≤ (processAll s inputs).count_cars ∧
    s.count_bikes ≤ (processAll s inputs).count_bikes ∧
    s.count_trucks ≤ (processAll s inputs).count_trucks := by
  rcases step_counters_mono loc ok s o with ⟨m1, m2, m3⟩
  rcases run_counters_mono inputs s with ⟨r1, r2, r3⟩
  refine ⟨fun hemit => ?_, m1, m2, m3, r1, r2, r3⟩
  rcases processObservation_cases loc ok s o with h | h | ⟨hn, h⟩
  · rw [h] at hemit
    exact absurd hemit (by omega)
  · rw [h] at hemit
    dsimp only at hemit
    exact absurd hemit (by omega)
  · rw [h]
    rcases emit_event_counters loc ok o
        { s with object_memory := (o.box_id, centroid o.bbox) :: s.object_memory }
      with ⟨h1, h2, h3, h4, _, _, _⟩
    exact ⟨h1, h2, h3, h4⟩

/-- Witness for the amended C4: the concrete car crossing of scenario 1
increments exactly the car counter (the emission hypothesis and the label
premise are discharged at this concrete input). -/
theorem counter_tracking_witness :
    (processObservation "L" true (processAll initState [⟨"L", true, obsA⟩])
        obsB).count_cars =
      (processAll initState [⟨"L", true, obsA⟩]).count_cars + 1 ∧
    (processObservation "L" true (processAll initState [⟨"L", true, obsA⟩])
        obsB).count_bikes =
      (processAll initState [⟨"L", true, obsA⟩]).count_bikes ∧
    (processObservation "L" true (processAll initState [⟨"L", true, obsA⟩])
        obsB).count_trucks =
      (processAll initState [⟨"L", true, obsA⟩]).count_trucks :=
  ((counter_tracking "L" true (processAll initState [⟨"L", true, obsA⟩]) obsB
    []).1 (by decide)).1 rfl

/-- C5 counterexample: a recognized-class observation with confidence `0.28`,
which does NOT exceed the configured `CONFIDENCE_THRESHOLD = 0.3`, is still
processed (its position memory is updated): the filter actually compares
against the literal `0.25`. -/
theorem confidence_filter_counterexample :
    ¬ (CONFIDENCE_THRESHOLD <
        (⟨3, "car", ⟨0, 0, 10, 10⟩, mkRat 28 100⟩ : TrackedObservation).conf) ∧
    processObservation "L" true initState
        ⟨3, "car", ⟨0, 0, 10, 10⟩, mkRat 28 100⟩ ≠ initState ∧
    (processObservation "L" true initState
        ⟨3, "car", ⟨0, 0, 10, 10⟩, mkRat 28 100⟩).object_memory = [(3, (5, 5))] := by
  decide

/-- C5 amended: an observation is processed (position memory updated, crossing
test run, event possible) if and only if its label is in the recognized set
and its confidence exceeds the literal `0.25` used on line 165 — not the
configured `CONFIDENCE_THRESHOLD = 0.3`; every other observation leaves the
state completely unchanged. -/
theorem confidence_filter (loc : String) (ok : Bool) (s : EngineState)
    (o : TrackedObservation) :
    (¬ (o.label ∈ recognized_labels ∧ conf_literal < o.conf) →
      processObservation loc ok s o = s) ∧
    ((o.label ∈ recognized_labels ∧ conf_literal < o.conf) →
      (processObservation loc ok s o).object_memory =
        (o.box_id, centroid o.bbox) :: s.object_memory ∧
      processObservation loc ok s o ≠ s) := by
  constructor
  · exact fun h => processObservation_filtered loc ok s o h
  · intro h
    have hm : (processObservation loc ok s o).object_memory =
        (o.box_id, centroid o.bbox) :: s.object_memory := by
      by_cases h2 : crossed_line
          ((s.object_memory.lookup o.box_id).getD (centroid o.bbox))
          (centroid o.bbox) LINE_START LINE_END = true ∧ o.box_id ∉ s.counted_ids
      · rw [processObservation_emit loc ok s o h h2.1 h2.2]
        exact (emit_event_fields loc ok o _).1
      · rw [processObservation_no_emit loc ok s o h h2]
    refine ⟨hm, fun heq => ?_⟩
    rw [heq] at hm
    have hl := congrArg List.length hm
    simp at hl

/-- Witness for the amended C5: an unrecognized label is fully ignored, a
recognized one above `0.25` gets its position memory initialized. -/
theorem confidence_filter_witness :
    processObservation "L" true initState
      (⟨3, "person", ⟨0, 0, 10, 10⟩, mkRat 9 10⟩ : TrackedObservation) = initState ∧
    (processObservation "L" true initState obs9).object_memory = [(9, (500, 500))] := by
  constructor
  · exact (confidence_filter "L" true initState _).1 (by decide)
  · have h := ((confidence_filter "L" true initState obs9).2 (by decide)).1
    rw [h]
    decide

/-- C6 (no first-sight crossing): the crossing test on a zero-length
displacement segment is always `false`, and processing the very first
observation of an id (no position-memory entry yet) never emits an event —
no new counted id, no sink attempt, no event — regardless of where its
bounding box lies relative to the gate. -/
theorem no_first_sight_crossing (loc : String) (ok : Bool) (s : EngineState)
    (o : TrackedObservation) (h : s.object_memory.lookup o.box_id = none) :
    (∀ p gs ge : Point, crossed_line p p gs ge = false) ∧
    (processObservation loc ok s o).events = s.events ∧
    (processObservation loc ok s o).counted_ids = s.counted_ids ∧
    (processObservation loc ok s o).sink_attempts = s.sink_attempts := by
  refine ⟨fun p gs ge => crossed_line_degenerate p gs ge, ?_⟩
  by_cases hf : o.label ∈ recognized_labels ∧ conf_literal < o.conf
  · have h2 : ¬ (crossed_line
        ((s.object_memory.lookup o.box_id).getD (centroid o.bbox))
        (centroid o.bbox) LINE_START LINE_END = true ∧
        o.box_id ∉ s.counted_ids) := by
      rw [h, Option.getD_none, crossed_line_degenerate]
      intro hc
      exact Bool.false_ne_true hc.1
    rw [processObservation_no_emit loc ok s o hf h2]
    exact ⟨rfl, rfl, rfl⟩
  · rw [processObservation_filtered loc ok s o hf]
    exact ⟨rfl, rfl, rfl⟩

/-- Witness for C6: concrete scenario 3 — id 9 first observed at `(500, 500)`:
no event, no counted id, memory initialized to the current centroid. -/
theorem no_first_sight_crossing_witness :
    initState.object_memory.lookup obs9.box_id = none ∧
    (processObservation "L" true initState obs9).events = [] ∧
    (processObservation "L" true initState obs9).counted_ids = [] ∧
    (processObservation "L" true initState obs9).object_memory = [(9, (500, 500))] := by
  refine ⟨rfl, ?_, ?_, by decide⟩
  · exact (no_first_sight_crossing "L" true initState obs9 rfl).2.1
  · exact (no_first_sight_crossing "L" true initState obs9 rfl).2.2.1

/-- C7 (sink-failure atomicity): for an otherwise-valid crossing whose sink
write fails, the id is still added to `counted_ids` (no rollback), the sink
receives no event (the event is permanently lost), exactly one write was
attempted, the run continues with the same control state as a successful
write (only the received-events differ), and no retry ever happens: across
any continuation the total number of attempts for that id stays one. -/
theorem sink_failure_policy (loc : String) (s : EngineState)
    (o : TrackedObservation)
    (h1 : o.label ∈ recognized_labels) (h2 : conf_literal < o.conf)
    (h3 : crossed_line ((s.object_memory.lookup o.box_id).getD (centroid o.bbox))
        (centroid o.bbox) LINE_START LINE_END = true)
    (h4 : o.box_id ∉ s.counted_ids) :
    (processObservation loc false s o).counted_ids = o.box_id :: s.counted_ids ∧
    (processObservation loc false s o).events = s.events ∧
    (processObservation loc false s o).sink_attempts =
      s.sink_attempts ++ [o.box_id] ∧
    (processObservation loc false s o).counted_ids =
      (processObservation loc true s o).counted_ids ∧
    (processObservation loc false s o).object_memory =
      (processObservation loc true s o).object_memory ∧
    (processObservation loc false s o).sink_attempts =
      (processObservation loc true s o).sink_attempts ∧
    (processObservation loc true s o).events =
      s.events ++ [⟨map_vehicle_class o.label, o.box_id, loc⟩] ∧
    (∀ more, attemptCount o.box_id
        (processAll (processObservation loc false s o) more) =
      s.sink_attempts.count o.box_id + 1) := by
  have hf := processObservation_emit loc false s o ⟨h1, h2⟩ h3 h4
  have ht := processObservation_emit loc true s o ⟨h1, h2⟩ h3 h4
  rcases emit_event_fields loc false o
      { s with object_memory := (o.box_id, centroid o.bbox) :: s.object_memory }
    with ⟨hm0, hc0, ha0, he0⟩
  rcases emit_event_fields loc true o
      { s with object_memory := (o.box_id, centroid o.bbox) :: s.object_memory }
    with ⟨hm1, hc1, ha1, he1⟩
  rw [if_neg Bool.false_ne_true, List.append_nil] at he0
  rw [if_pos rfl] at he1
  refine ⟨?_, ?_, ?_, ?_, ?_, ?_, ?_, ?_⟩
  · rw [hf]
    exact hc0
  · rw [hf]
    exact he0
  · rw [hf]
    exact ha0
  · rw [hf, ht, hc0, hc1]
  · rw [hf, ht, hm0, hm1]
  · rw [hf, ht, ha0, ha1]
  · rw [ht]
    exact he1
  · intro more
    have hmem : o.box_id ∈ (processObservation loc false s o).counted_ids := by
      rw [hf, hc0]
      exact List.mem_cons_self _ _
    rcases frozen_all more (processObservation loc false s o) o.box_id hmem
      with ⟨_, hfr, _⟩
    rw [hfr]
    unfold attemptCount
    rw [hf, ha0]
    dsimp only
    rw [List.count_append]
    simp

/-- Witness for C7: concrete scenario 4 — id 7's valid crossing with a failing
sink write: the id is counted, the sink received nothing, and even after one
more crossing-shaped observation of id 7 exactly one attempt total was made. -/
theorem sink_failure_policy_witness :
    (processObservation "L" false (processAll initState [⟨"L", true, obsA⟩])
        obsB).counted_ids = [7] ∧
    (processObservation "L" false (processAll initState [⟨"L", true, obsA⟩])
        obsB).events = [] ∧
    attemptCount 7 (processAll
        (processObservation "L" false (processAll initState [⟨"L", true, obsA⟩]) obsB)
        [⟨"L", true, obsB⟩]) = 1 := by
  have h := sink_failure_policy "L" (processAll initState [⟨"L", true, obsA⟩]) obsB
    (by decide) (by decide) (by decide) (by decide)
  refine ⟨?_, ?_, ?_⟩
  · rw [h.1]
    decide
  · rw [h.2.1]
    decide
  · show attemptCount obsB.box_id (processAll
        (processObservation "L" false (processAll initState [⟨"L", true, obsA⟩]) obsB)
        [⟨"L", true, obsB⟩]) = 1
    rw [h.2.2.2.2.2.2.2 [⟨"L", true, obsB⟩]]
    decide

/-- C8 counterexample: against a frame source that never yields a frame (so
that every restart "fails"), the read loop never reaches the halted state —
not even with ESC continuously pressed — so the process does NOT stop; it
spins. -/
theorem restart_fatality_counterexample :
    ¬ ∃ n : Nat, loop_run (fun _ => none) (fun _ => true) n = LoopState.halted := by
  rintro ⟨n, hn⟩
  rw [loop_run_all_none] at hn
  exact LoopState.noConfusion hn

/-- C8 amended: when the frame source persistently yields no frame, the loop
performs a restart on every iteration and keeps running forever — after `n`
iterations it has restarted `n` times, sits at position 0 and has never
halted. -/
theorem restart_spins_forever (esc : Nat → Bool) (n : Nat) :
    loop_run (fun _ => none) esc n = LoopState.running 0 n :=
  loop_run_all_none esc n

end VehicleCounter
